import Mathlib

/-!
Verification of the grid-based gameplay core of the Antzer game
(a Frogger-style arcade game).

The definitions below are a shallow embedding of the TypeScript sources:

- `src/src/game/grid-system.ts` (grid model: `GridSystem`, `getCell`,
  `setCell`, coordinate conversion, level parsing, `isCellSafe`);
- `src/src/game/collision-manager.ts` (collision/safety resolver:
  `checkPlayerCollision`, `checkPlatformCollision`);
- `src/src/config/level1.ts` (level data, `findLevelPositions`,
  `validateLevel`);
- `src/src/objects/Player.ts` (grid-based player movement);
- `src/src/objects/platform.ts` and `src/src/objects/Obstacle.ts`
  (screen-wrap behaviour of moving entities).

JavaScript numbers are modelled as rationals (`ℚ`) for continuous world
coordinates and as integers (`ℤ`) for grid coordinates; `Math.floor`
becomes `Int.floor` and `Math.round` becomes `jsRound` (floor of x + 1/2,
which is the ECMAScript rounding rule).
-/

/-- Grid cell size in pixels, from `GRID_SIZE = 48` in `src/config/constants.ts`. -/
def GRID_SIZE : ℚ := 48

/-- ECMAScript `Math.round`: rounds half-up, i.e. `⌊x + 1/2⌋`. -/
def jsRound (q : ℚ) : ℤ := ⌊q + 1 / 2⌋

/-- Terrain types of a grid cell, from `enum CellType` in `grid-system.ts`. -/
inductive CellType where
  | SAFE_GRASS
  | WATER
  | ROAD
deriving DecidableEq, Repr

/-- Objects that can occupy a grid cell, from `enum GridObjectType` in `grid-system.ts`. -/
inductive GridObjectType where
  | NONE
  | LOG
  | LEAF
  | POISON
  | SPRAY
  | NAIL
  | CHERRY
  | COOKIE
  | ANT_HILL
deriving DecidableEq, Repr

open CellType GridObjectType

/-- A single cell of the game grid, from `interface GridCell` in `grid-system.ts`. -/
structure GridCell where
  type : CellType
  object : GridObjectType
  safe : Bool
deriving DecidableEq, Repr

/-- State of the grid system: the 2D cell array plus the cached dimensions,
from the fields of `class GridSystem` in `grid-system.ts`. -/
structure GridSystem where
  gameGrid : List (List GridCell)
  gridWidth : ℕ
  gridHeight : ℕ
deriving DecidableEq, Repr

/-- Safety rule from `GridSystem.isCellSafe` in `grid-system.ts`: grass is
always safe, road is safe iff the cell has no object, water is safe iff the
cell holds a log or leaf platform. -/
def isCellSafe (cellType : CellType) (objectType : GridObjectType) : Bool :=
  match cellType with
  | SAFE_GRASS => true
  | ROAD => objectType = NONE
  | WATER => objectType = LOG || objectType = LEAF

/-- Bounds test shared by `getCell` and `setCell` in `grid-system.ts`. -/
def GridSystem.inBounds (g : GridSystem) (row col : ℤ) : Prop :=
  0 ≤ row ∧ row < (g.gridHeight : ℤ) ∧ 0 ≤ col ∧ col < (g.gridWidth : ℤ)

instance (g : GridSystem) (row col : ℤ) : Decidable (g.inBounds row col) := by
  unfold GridSystem.inBounds; infer_instance

/-- `GridSystem.getCell` from `grid-system.ts`: bounds-checked read that
returns `null` (here `none`) for out-of-bounds coordinates. -/
def GridSystem.getCell (g : GridSystem) (row col : ℤ) : Option GridCell :=
  if g.inBounds row col then
    (g.gameGrid.get? row.toNat).bind (fun r => r.get? col.toNat)
  else
    none

/-- Replacing the object of one cell and recomputing its safety, the two
assignments in the body of `GridSystem.setCell`. -/
def updateCell (cell : GridCell) (objectType : GridObjectType) : GridCell :=
  { cell with object := objectType, safe := isCellSafe cell.type objectType }

/-- In-place update of position `col` of one grid row. -/
def setInRow : List GridCell → ℕ → GridObjectType → List GridCell
  | [], _, _ => []
  | c :: cs, 0, t => updateCell c t :: cs
  | c :: cs, n + 1, t => c :: setInRow cs n t

/-- In-place update of position `(row, col)` of the 2D cell array. -/
def setInGrid : List (List GridCell) → ℕ → ℕ → GridObjectType → List (List GridCell)
  | [], _, _, _ => []
  | r :: rs, 0, col, t => setInRow r col t :: rs
  | r :: rs, n + 1, col, t => r :: setInGrid rs n col t

/-- `GridSystem.setCell` from `grid-system.ts`: bounds-checked write that
stores the new object type and recomputes the `safe` flag; out-of-bounds
writes are no-ops. -/
def GridSystem.setCell (g : GridSystem) (row col : ℤ) (objectType : GridObjectType) :
    GridSystem :=
  if g.inBounds row col then
    { g with gameGrid := setInGrid g.gameGrid row.toNat col.toNat objectType }
  else
    g

/-- `GridSystem.getPlayerGridPosition` from `grid-system.ts`: world-to-grid
conversion, `(row, col) = (⌊y / GRID_SIZE⌋, ⌊x / GRID_SIZE⌋)`. -/
def getPlayerGridPosition (x y : ℚ) : ℤ × ℤ :=
  (⌊y / GRID_SIZE⌋, ⌊x / GRID_SIZE⌋)

/-- `GridSystem.getWorldPosition` from `grid-system.ts`: grid-to-world
conversion returning the center of the cell. -/
def getWorldPosition (row col : ℤ) : ℚ × ℚ :=
  ((col : ℚ) * GRID_SIZE + GRID_SIZE / 2, (row : ℚ) * GRID_SIZE + GRID_SIZE / 2)

/-- `GridSystem.clearObjectsInRow` from `grid-system.ts`: removes every
object of one of the given kinds from a row by writing `NONE` through
`setCell`. -/
def GridSystem.clearObjectsInRow (g : GridSystem) (row : ℤ)
    (objectTypes : List GridObjectType) : GridSystem :=
  (List.range g.gridWidth).foldl
    (fun acc col =>
      match acc.getCell row (col : ℤ) with
      | some cell => if cell.object ∈ objectTypes then acc.setCell row (col : ℤ) NONE else acc
      | none => acc)
    g

/-- Level 1 layout, `LEVEL_1` in `src/config/level1.ts` (48 rows of 16 cells). -/
def LEVEL_1 : List String :=
  [ "GGGGGGHGGGKGGGGG",
    "GGCGGGGGCGGGCGGG",
    "WWWWWWWWWWWWWWWW",
    "WWWWWWWWWWWWWWWW",
    "WWWWWWWWWWWWWWWW",
    "GCGGGGGGGGGGGGCG",
    "RPRRRRPRRRRRPRRR",
    "RRYRRRYRRRYRRYRR",
    "RNRRRRRRNRRRRRNR",
    "GGGCGGGGGGCGGGGG",
    "GGGCGGGGGGCGGGKG",
    "GCGGGGGGGGGGGGCG",
    "WWWWWWWWWWWWWWWW",
    "WWWWWWWWWWWWWWWW",
    "WWWWWWWWWWWWWWWW",
    "GCGGGGGGGGGGGGCG",
    "RPRRRRPRRRRRPRRR",
    "RRYRRRYRRRYRRYRR",
    "RNRRRRRRNRRRRRNR",
    "GGGCGGGGGGCGGGGG",
    "GGGCGGGGGGCGGGKG",
    "GCGGGGGGGGGGGGCG",
    "WWWWWWWWWWWWWWWW",
    "WWWWWWWWWWWWWWWW",
    "WWWWWWWWWWWWWWWW",
    "WWWWWWWWWWWWWWWW",
    "GCGGGGGGGGGGGGCG",
    "RPRRRRPRRRRRPRRR",
    "RRYRRRYRRRYRRYRR",
    "RNRRRRRRNRRRRRNR",
    "RPRYRNRPRYRNRPRR",
    "GGGCGGGGGGCGGGGG",
    "GGGCGGGGGGCGGGKG",
    "GCGGGGGGGGGGGGCG",
    "WWWWWWWWWWWWWWWW",
    "WWWWWWWWWWWWWWWW",
    "WWWWWWWWWWWWWWWW",
    "GCGGGGGGGGGGGGCG",
    "RPRRRRPRRRRRPRRR",
    "RRYRRRYRRRYRRYRR",
    "RNRRRRRRNRRRRRNR",
    "GGGCGGGGGGCGGGGG",
    "GGGCGGGGGGCGGGKG",
    "GCGGGGGGGGGGGGCG",
    "GGGCGGGGGGCGGGGG",
    "GGGCGGGGGGCGGGKG",
    "GCGGGGGGGGGGGGCG",
    "GGGCGGAGGGGGGGKG" ]

/-- `GridSystem.parseCellCharacter` from `grid-system.ts`: maps one level
character to a terrain/object pair, with unknown characters defaulting to
safe grass. -/
def parseCellCharacter (ch : Char) : CellType × GridObjectType :=
  match ch with
  | 'G' => (SAFE_GRASS, NONE)
  | 'A' => (SAFE_GRASS, NONE)
  | 'H' => (SAFE_GRASS, ANT_HILL)
  | 'C' => (SAFE_GRASS, CHERRY)
  | 'K' => (SAFE_GRASS, COOKIE)
  | 'R' => (ROAD, NONE)
  | 'P' => (ROAD, POISON)
  | 'N' => (ROAD, NAIL)
  | 'Y' => (ROAD, SPRAY)
  | 'W' => (WATER, NONE)
  | 'L' => (WATER, LOG)
  | 'F' => (WATER, LEAF)
  | _ => (SAFE_GRASS, NONE)

/-- Building one grid cell from a level character, as in the loop body of
`GridSystem.initializeGrid`: the cached `safe` flag is computed with
`isCellSafe` from the parsed terrain and object. -/
def mkCell (ch : Char) : GridCell :=
  { type := (parseCellCharacter ch).1,
    object := (parseCellCharacter ch).2,
    safe := isCellSafe (parseCellCharacter ch).1 (parseCellCharacter ch).2 }

/-- Character of `LEVEL_1` at `(row, col)`; out-of-range access yields the
placeholder character, which `parseCellCharacter` sends to the same default
as the JavaScript `undefined` index result. -/
def levelChar (rows : List String) (row col : ℕ) : Char :=
  (((rows.get? row).map String.toList).getD []).getD col '?'

/-- Width of level 1, `LEVEL_1_CONFIG.width` in `level1.ts`
(`LEVEL_1[0]?.length || 16`). -/
def LEVEL_1_width : ℕ := 16

/-- Height of level 1, `LEVEL_1_CONFIG.height` in `level1.ts` (`LEVEL_1.length`). -/
def LEVEL_1_height : ℕ := 48

/-- `GridSystem.initializeGrid` from `grid-system.ts`: the grid built from
the level 1 definition, one `mkCell` per level character. -/
def initGrid : GridSystem :=
  { gameGrid :=
      (List.range LEVEL_1_height).map (fun row =>
        (List.range LEVEL_1_width).map (fun col => mkCell (levelChar LEVEL_1 row col))),
    gridWidth := LEVEL_1_width,
    gridHeight := LEVEL_1_height }

/-- State of the player sprite, from the fields of `class Player` in
`src/src/objects/Player.ts`: grid coordinates, the continuous world
position `(x, y)`, the horizontal flip flag, the death flag, and the
per-instance grid dimensions (constants 16 and 12 in `Player.ts`; read from
the grid system, with the same roles, in the unnamed duplicate). -/
structure Player where
  gridRow : ℤ
  gridCol : ℤ
  gridWidth : ℤ
  gridHeight : ℤ
  x : ℚ
  y : ℚ
  flipX : Bool
  isDead : Bool
deriving DecidableEq, Repr

/-- `Player.snapToGrid` from `Player.ts`: the world position is the rounded
center of the current grid cell. -/
def Player.snapToGrid (p : Player) : Player :=
  { p with
    x := (jsRound ((p.gridCol : ℚ) * GRID_SIZE + GRID_SIZE / 2) : ℤ),
    y := (jsRound ((p.gridRow : ℚ) * GRID_SIZE + GRID_SIZE / 2) : ℤ) }

/-- `Player.moveLeft` from `Player.ts`. -/
def Player.moveLeft (p : Player) : Player :=
  if p.gridCol > 0 then
    Player.snapToGrid { p with gridCol := p.gridCol - 1, flipX := true }
  else p

/-- `Player.moveRight` from `Player.ts`. -/
def Player.moveRight (p : Player) : Player :=
  if p.gridCol < p.gridWidth - 1 then
    Player.snapToGrid { p with gridCol := p.gridCol + 1, flipX := false }
  else p

/-- `Player.moveUp` from `Player.ts` (the jump-sound side effect is
presentation only and is not part of the state). -/
def Player.moveUp (p : Player) : Player :=
  if p.gridRow > 0 then
    Player.snapToGrid { p with gridRow := p.gridRow - 1 }
  else p

/-- `Player.moveDown` from `Player.ts`. -/
def Player.moveDown (p : Player) : Player :=
  if p.gridRow < p.gridHeight - 1 then
    Player.snapToGrid { p with gridRow := p.gridRow + 1 }
  else p

/-- `Phaser.Math.Clamp(value, min, max)`, used by `Player.setGridPosition`:
`Math.max(min, Math.min(max, value))`. -/
def clamp (value lo hi : ℤ) : ℤ := max lo (min hi value)

/-- `Player.setGridPosition` from `Player.ts`: clamps the requested grid
coordinates to the valid range and snaps the world position to the
resulting cell. -/
def Player.setGridPosition (p : Player) (row col : ℤ) : Player :=
  Player.snapToGrid
    { p with
      gridRow := clamp row 0 (p.gridHeight - 1),
      gridCol := clamp col 0 (p.gridWidth - 1) }

/-- `Player.die` from `Player.ts`: a no-op when already dead, otherwise
sets the death flag (animation and audio are presentation only). -/
def Player.die (p : Player) : Player :=
  if p.isDead then p else { p with isDead := true }

/-- State of one platform sprite, from `class Platform` in
`src/src/objects/platform.ts` as seen by the collision manager and by the
wrap logic: world position, display width, and horizontal velocity. -/
structure Platform where
  x : ℚ
  y : ℚ
  displayWidth : ℚ
  vx : ℚ
deriving DecidableEq, Repr

/-- `Platform.handleScreenWrapping` from `platform.ts`: a platform moving
right that is past `width + displayWidth` restarts at `-displayWidth`, and
symmetrically for a platform moving left. -/
def Platform.handleScreenWrapping (width : ℚ) (p : Platform) : Platform :=
  if p.vx > 0 then
    if p.x > width + p.displayWidth then { p with x := -p.displayWidth } else p
  else if p.vx < 0 then
    if p.x < -p.displayWidth then { p with x := width + p.displayWidth } else p
  else p

/-- State of one obstacle sprite, from `class Obstacle` in
`src/src/objects/Obstacle.ts`: world x position and horizontal velocity. -/
structure Obstacle where
  x : ℚ
  vx : ℚ
deriving DecidableEq, Repr

/-- Display width of an obstacle sprite, from `setDisplaySize(60, 60)` in
the `Obstacle` constructor. -/
def obstacleDisplayWidth : ℚ := 60

/-- `Obstacle.update` from `Obstacle.ts`: wraps the obstacle around the
screen using a fixed 50-pixel margin on either side, independent of the
velocity sign and of the sprite width. -/
def Obstacle.update (width : ℚ) (o : Obstacle) : Obstacle :=
  if o.x < -50 then { o with x := width + 50 }
  else if o.x > width + 50 then { o with x := -50 }
  else o

/-- Reference frame rate, `FRAME_RATE = 60` in `collision-manager.ts`. -/
def FRAME_RATE : ℚ := 60

/-- Points per cherry, `CHERRY_POINTS = 10` in `collision-manager.ts`. -/
def CHERRY_POINTS : ℤ := 10

/-- Points per cookie, `COOKIE_POINTS = 20` in `collision-manager.ts`. -/
def COOKIE_POINTS : ℤ := 20

/-- Grid row of the player, `gridSystem.getPlayerGridPosition(player.x, player.y).row`. -/
def playerRow (p : Player) : ℤ := (getPlayerGridPosition p.x p.y).1

/-- Grid column of the player, `gridSystem.getPlayerGridPosition(player.x, player.y).col`. -/
def playerCol (p : Player) : ℤ := (getPlayerGridPosition p.x p.y).2

/-- Condition under which the loop body of
`CollisionManager.checkPlatformCollision` accepts a platform for grid
position `(row, col)`: same grid row, and the inclusive column span of the
platform width contains `col`. -/
def spanB (q : Platform) (row col : ℤ) : Bool :=
  decide (⌊q.y / GRID_SIZE⌋ = row) &&
    decide (⌊(q.x - q.displayWidth / 2) / GRID_SIZE⌋ ≤ col) &&
    decide (col ≤ ⌊(q.x + q.displayWidth / 2) / GRID_SIZE⌋)

/-- Loop body of `CollisionManager.checkPlatformCollision`, iterated over
the platform group: a platform covering `(row, col)` turns `isOnPlatform`
on and overwrites `deltaX` with `velocity.x / FRAME_RATE`. -/
def platformStep (row col : ℤ) (acc : Bool × ℚ) (q : Platform) : Bool × ℚ :=
  if ⌊q.y / GRID_SIZE⌋ = row then
    if ⌊(q.x - q.displayWidth / 2) / GRID_SIZE⌋ ≤ col ∧
        col ≤ ⌊(q.x + q.displayWidth / 2) / GRID_SIZE⌋ then
      (true, q.vx / FRAME_RATE)
    else acc
  else acc

/-- `CollisionManager.checkPlatformCollision` from `collision-manager.ts`:
scans all platforms and returns whether some platform covers `(row, col)`
together with the ride displacement of the last such platform. -/
def checkPlatformCollision (platforms : List Platform) (row col : ℤ) : Bool × ℚ :=
  platforms.foldl (platformStep row col) (false, 0)

/-- Result record of one resolver step, `interface CollisionResult` in
`collision-manager.ts`. -/
structure CollisionResult where
  isDead : Bool
  isWin : Bool
  collectible : Option (GridObjectType × ℤ × ℤ × ℤ)
  platformMovement : Option ℚ
deriving DecidableEq, Repr

/-- `CollisionManager.checkPlayerCollision` from `collision-manager.ts`,
paired with the grid it leaves behind (the only mutation is clearing a
collected cherry or cookie through `setCell`). In the source, `cell` is a
live reference into `gameGrid`, and the collectible branch builds its
result after `setCell(row, col, NONE)` has already mutated that cell in
place: the `type` field of the payload therefore reads the cleared
occupant, which is always `NONE` at runtime, while `points` was computed
from the occupant before the write. -/
def checkPlayerCollision (g : GridSystem) (platforms : List Platform) (player : Player) :
    CollisionResult × GridSystem :=
  if player.isDead then
    ({ isDead := false, isWin := false, collectible := none, platformMovement := none }, g)
  else
    match g.getCell (playerRow player) (playerCol player) with
    | none =>
      ({ isDead := true, isWin := false, collectible := none, platformMovement := none }, g)
    | some cell =>
      if cell.object = CHERRY ∨ cell.object = COOKIE then
        ({ isDead := false, isWin := false,
           -- the aliased cell.object read happens after the in-place clear,
           -- so the payload kind is the written NONE, not the pre-clear occupant
           collectible := some (NONE,
             (if cell.object = CHERRY then CHERRY_POINTS else COOKIE_POINTS),
             playerRow player, playerCol player),
           platformMovement := none },
         g.setCell (playerRow player) (playerCol player) NONE)
      else if cell.object = ANT_HILL then
        ({ isDead := false, isWin := true, collectible := none, platformMovement := none }, g)
      else if cell.type = WATER then
        if (checkPlatformCollision platforms (playerRow player) (playerCol player)).1 then
          ({ isDead := false, isWin := false, collectible := none,
             platformMovement :=
               some (checkPlatformCollision platforms (playerRow player) (playerCol player)).2 },
           g)
        else
          ({ isDead := true, isWin := false, collectible := none, platformMovement := none }, g)
      else if cell.safe = false then
        ({ isDead := true, isWin := false, collectible := none, platformMovement := none }, g)
      else
        ({ isDead := false, isWin := false, collectible := none, platformMovement := none }, g)

/-- Positions of the special level markers, `interface LevelPositions` in
`level1.ts`; `(-1, -1)` is the sentinel for a marker that was never seen. -/
structure LevelPositions where
  antStart : ℤ × ℤ
  antHill : ℤ × ℤ
deriving DecidableEq, Repr

/-- Body of the inner loop of `findLevelPositions` in `level1.ts`: one
character of row `rowIdx`, recording marker positions. -/
def markStep (rowIdx : ℕ) (pos : LevelPositions) (chPair : ℕ × Char) : LevelPositions :=
  if chPair.2 = 'A' then
    { pos with antStart := ((rowIdx : ℤ), (chPair.1 : ℤ)) }
  else if chPair.2 = 'H' then
    { pos with antHill := ((rowIdx : ℤ), (chPair.1 : ℤ)) }
  else pos

/-- Body of the outer loop of `findLevelPositions` in `level1.ts`: scans one
row of the level. -/
def rowStep (pos : LevelPositions) (rowPair : ℕ × String) : LevelPositions :=
  rowPair.2.toList.enum.foldl (markStep rowPair.1) pos

/-- `findLevelPositions` from `level1.ts`, generalised over the scanned row
list: scans every character and records the position of the markers, later
occurrences overwriting earlier ones. -/
def findLevelPositions (rows : List String) : LevelPositions :=
  rows.enum.foldl rowStep { antStart := (-1, -1), antHill := (-1, -1) }

/-- `LEVEL_1_CONFIG.width` from `level1.ts`, generalised over the row list:
`rows[0]?.length || 16`, so an absent or empty first row falls back to 16. -/
def levelWidth (rows : List String) : ℕ :=
  match rows with
  | [] => 16
  | r :: _ => if r.length = 0 then 16 else r.length

/-- `validateLevel` from `level1.ts`, generalised over the row list: reports
a missing start marker, a missing goal marker, and every row whose length
differs from the configured width. -/
def validateLevel (rows : List String) : List String :=
  let positions := findLevelPositions rows
  let width := levelWidth rows
  let startErrors : List String :=
    if positions.antStart.1 = -1 ∨ positions.antStart.2 = -1 then
      ["Ant start position A not found in level definition"]
    else []
  let hillErrors : List String :=
    if positions.antHill.1 = -1 ∨ positions.antHill.2 = -1 then
      ["Ant hill position H not found in level definition"]
    else []
  let lengthErrors : List String :=
    rows.enum.filterMap (fun rowPair =>
      if rowPair.2.length ≠ width then
        some ("Row " ++ toString rowPair.1 ++ " has " ++ toString rowPair.2.length ++
          " characters, expected " ++ toString width)
      else none)
  startErrors ++ hillErrors ++ lengthErrors

/-- Safety rule table as stated in the specification, for comparison with
the implementation function `isCellSafe`: a Grass cell is safe; a Road cell
is safe iff its occupant is None; a Water cell is safe iff its occupant is
Log or Leaf. -/
def specCellSafe (cellType : CellType) (objectType : GridObjectType) : Bool :=
  match cellType with
  | SAFE_GRASS => true
  | ROAD => objectType = NONE
  | WATER => objectType = LOG || objectType = LEAF

/-- Decidable statement that every cell of a grid has its cached `safe` flag
equal to the specification's safety rule applied to its terrain and occupant. -/
def specConsistent (g : GridSystem) : Bool :=
  g.gameGrid.all (fun row => row.all (fun c => c.safe == specCellSafe c.type c.object))

/-- Grid states reachable in the game: the grid built by `initializeGrid`
from the level definition, followed by any sequence of `setCell` writes
(every mutation of the grid in the sources goes through `setCell`,
including `clearObjectsInRow` and the collectible placement). -/
inductive Reachable : GridSystem → Prop where
  | init : Reachable initGrid
  | step (row col : ℤ) (t : GridObjectType) {g : GridSystem} :
      Reachable g → Reachable (g.setCell row col t)

/-- Concrete scenario: an alive player standing on water row 2, column 4
of the level-1 grid (world position (216, 120)). -/
def demoWaterPlayer : Player :=
  { gridRow := 2, gridCol := 4, gridWidth := 16, gridHeight := 48,
    x := 216, y := 120, flipX := false, isDead := false }

/-- Concrete scenario: a log platform on water row 2, centered at x = 240
with display width 150 (column span 3 to 6), moving at 60 px/s. -/
def demoLog : Platform :=
  { x := 240, y := 120, displayWidth := 150, vx := 60 }

/-- Concrete scenario: an alive player in the corner of a 1 x 1 grid, where
all four movement edge conditions hold at once. -/
def demoCornerPlayer : Player :=
  { gridRow := 0, gridCol := 0, gridWidth := 1, gridHeight := 1,
    x := 24, y := 24, flipX := false, isDead := false }

/-- Concrete scenario: an alive player standing on the cherry cell (1, 2)
of the level-1 grid (world position (120, 72)). -/
def demoCherryPlayer : Player :=
  { gridRow := 1, gridCol := 2, gridWidth := 16, gridHeight := 48,
    x := 120, y := 72, flipX := false, isDead := false }

set_option maxRecDepth 100000


lemma isCellSafe_eq_spec (t : CellType) (o : GridObjectType) :
    isCellSafe t o = specCellSafe t o := rfl

lemma updateCell_consistent (c : GridCell) (t : GridObjectType) :
    (updateCell c t).safe == specCellSafe (updateCell c t).type (updateCell c t).object := by
  simp [updateCell, isCellSafe_eq_spec]

lemma setInRow_all {P : GridCell → Bool} (hP : ∀ c t, P (updateCell c t) = true) :
    ∀ (r : List GridCell) (j : ℕ) (t : GridObjectType),
      r.all P = true → (setInRow r j t).all P = true := by
  intro r
  induction r with
  | nil => intro j t _; simp [setInRow]
  | cons c cs ih =>
    intro j t h
    simp only [List.all_cons, Bool.and_eq_true] at h
    cases j with
    | zero => simp [setInRow, hP, h.2]
    | succ n => simp [setInRow, h.1, ih n t h.2]

lemma setInGrid_all {P : GridCell → Bool} (hP : ∀ c t, P (updateCell c t) = true) :
    ∀ (rows : List (List GridCell)) (i j : ℕ) (t : GridObjectType),
      (rows.all (fun r => r.all P)) = true →
      ((setInGrid rows i j t).all (fun r => r.all P)) = true := by
  intro rows
  induction rows with
  | nil => intro i j t _; simp [setInGrid]
  | cons r rs ih =>
    intro i j t h
    simp only [List.all_cons, Bool.and_eq_true] at h
    cases i with
    | zero => simp [setInGrid, setInRow_all hP r j t h.1, h.2]
    | succ n => simp [setInGrid, h.1, ih n j t h.2]

lemma setInRow_get? :
    ∀ (r : List GridCell) (j : ℕ) (t : GridObjectType) (c : GridCell),
      r.get? j = some c → (setInRow r j t).get? j = some (updateCell c t) := by
  intro r
  induction r with
  | nil => intro j t c h; cases j <;> simp [List.get?] at h
  | cons c0 cs ih =>
    intro j t c h
    cases j with
    | zero =>
      rw [List.get?_cons_zero] at h
      injection h with h
      subst h
      show (updateCell c0 t :: cs).get? 0 = some (updateCell c0 t)
      rw [List.get?_cons_zero]
    | succ n =>
      rw [List.get?_cons_succ] at h
      show (c0 :: setInRow cs n t).get? (n + 1) = some (updateCell c t)
      rw [List.get?_cons_succ]
      exact ih n t c h

lemma setInGrid_get? :
    ∀ (rows : List (List GridCell)) (i j : ℕ) (t : GridObjectType) (r : List GridCell),
      rows.get? i = some r → (setInGrid rows i j t).get? i = some (setInRow r j t) := by
  intro rows
  induction rows with
  | nil => intro i j t r h; cases i <;> simp [List.get?] at h
  | cons r0 rs ih =>
    intro i j t r h
    cases i with
    | zero =>
      rw [List.get?_cons_zero] at h
      injection h with h
      subst h
      show (setInRow r0 j t :: rs).get? 0 = some (setInRow r0 j t)
      rw [List.get?_cons_zero]
    | succ n =>
      rw [List.get?_cons_succ] at h
      show (r0 :: setInGrid rs n j t).get? (n + 1) = some (setInRow r j t)
      rw [List.get?_cons_succ]
      exact ih n j t r h

lemma getCell_inBounds {g : GridSystem} {row col : ℤ} {cell : GridCell}
    (h : g.getCell row col = some cell) : g.inBounds row col := by
  by_contra hn
  simp [GridSystem.getCell, hn] at h

lemma getCell_setCell_same {g : GridSystem} {row col : ℤ} {cell : GridCell}
    (t : GridObjectType) (h : g.getCell row col = some cell) :
    (g.setCell row col t).getCell row col = some (updateCell cell t) := by
  have hb : g.inBounds row col := getCell_inBounds h
  simp only [GridSystem.getCell, if_pos hb, Option.bind_eq_some] at h
  obtain ⟨rlist, hr, hc⟩ := h
  have hset : g.setCell row col t =
      { g with gameGrid := setInGrid g.gameGrid row.toNat col.toNat t } := by
    simp [GridSystem.setCell, if_pos hb]
  rw [hset]
  have hb2 : ({ g with gameGrid := setInGrid g.gameGrid row.toNat col.toNat t } :
      GridSystem).inBounds row col := hb
  simp only [GridSystem.getCell, if_pos hb2]
  have hr2 := setInGrid_get? g.gameGrid row.toNat col.toNat t rlist hr
  rw [hr2, Option.some_bind]
  exact setInRow_get? rlist col.toNat t cell hc

lemma initGrid_specConsistent : specConsistent initGrid = true := by
  simp only [specConsistent, List.all_eq_true]
  intro rowl hrow
  simp only [initGrid, List.mem_map, List.mem_range] at hrow
  obtain ⟨i, _, rfl⟩ := hrow
  intro c hc
  simp only [List.mem_map, List.mem_range] at hc
  obtain ⟨j, _, rfl⟩ := hc
  simp [mkCell, isCellSafe_eq_spec]

/-- C1: every grid state reachable through the game's write path (the
initial level parse followed by any sequence of `setCell` calls) has, for
every cell, its cached `safe` flag equal to the safety rule of its terrain
and occupant: a Grass cell is safe; a Road cell is safe iff its occupant
is None; a Water cell is safe iff its occupant is Log or Leaf. -/
theorem setCell_safety_invariant (g : GridSystem) (h : Reachable g) :
    specConsistent g = true := by
  induction h with
  | init => exact initGrid_specConsistent
  | step row col t hg ih =>
    unfold GridSystem.setCell
    split
    · simp only [specConsistent] at ih ⊢
      exact setInGrid_all (fun c t => by simpa using updateCell_consistent c t) _ _ _ t ih
    · exact ih

/-- Witness for C1, at the grid obtained by writing a poison obstacle into
cell (6, 3) of the initial level-1 grid. -/
theorem setCell_safety_invariant_witness :
    specConsistent (GridSystem.setCell initGrid 6 3 POISON) = true :=
  setCell_safety_invariant _ (Reachable.step 6 3 POISON Reachable.init)

lemma floor_center_div (n : ℤ) :
    ⌊((n : ℚ) * GRID_SIZE + GRID_SIZE / 2) / GRID_SIZE⌋ = n := by
  have h : ((n : ℚ) * GRID_SIZE + GRID_SIZE / 2) / GRID_SIZE = (n : ℚ) + 1 / 2 := by
    rw [GRID_SIZE]; ring
  rw [h, Int.floor_int_add]
  norm_num

/-- C5: for every in-bounds grid coordinate pair, converting to world
coordinates (the cell center) and back to grid coordinates is the
identity. -/
theorem worldToGrid_gridToWorld_roundtrip (r c : ℤ)
    (hr0 : 0 ≤ r) (hr1 : r < (LEVEL_1_height : ℤ))
    (hc0 : 0 ≤ c) (hc1 : c < (LEVEL_1_width : ℤ)) :
    getPlayerGridPosition (getWorldPosition r c).1 (getWorldPosition r c).2 = (r, c) := by
  simp only [getPlayerGridPosition, getWorldPosition, Prod.mk.injEq]
  exact ⟨floor_center_div r, floor_center_div c⟩

/-- Witness for C5 at the in-bounds pair (5, 3). -/
theorem worldToGrid_gridToWorld_roundtrip_witness :
    getPlayerGridPosition (getWorldPosition 5 3).1 (getWorldPosition 5 3).2 = (5, 3) :=
  worldToGrid_gridToWorld_roundtrip 5 3 (by decide) (by decide) (by decide) (by decide)

/-- C6: for an alive player, each directional move is a no-op at the
corresponding grid edge: `moveUp` at row 0, `moveDown` at row height - 1,
`moveLeft` at column 0, and `moveRight` at column width - 1 each leave the
player state (in particular grid row, grid column, and world position)
unchanged. -/
theorem move_noop_at_edges (p : Player) (halive : p.isDead = false) :
    (p.gridRow = 0 → p.moveUp = p) ∧
    (p.gridRow = p.gridHeight - 1 → p.moveDown = p) ∧
    (p.gridCol = 0 → p.moveLeft = p) ∧
    (p.gridCol = p.gridWidth - 1 → p.moveRight = p) := by
  refine ⟨?_, ?_, ?_, ?_⟩
  · intro h
    simp only [Player.moveUp, h]
    norm_num
  · intro h
    simp only [Player.moveDown, h]
    norm_num
  · intro h
    simp only [Player.moveLeft, h]
    norm_num
  · intro h
    simp only [Player.moveRight, h]
    norm_num

/-- Witness for C6 at a 1 x 1 grid corner where all four edge conditions
hold at once. -/
theorem move_noop_at_edges_witness :
    demoCornerPlayer.moveUp = demoCornerPlayer ∧
    demoCornerPlayer.moveDown = demoCornerPlayer ∧
    demoCornerPlayer.moveLeft = demoCornerPlayer ∧
    demoCornerPlayer.moveRight = demoCornerPlayer := by
  have h := move_noop_at_edges demoCornerPlayer rfl
  exact ⟨h.1 rfl, h.2.1 rfl, h.2.2.1 rfl, h.2.2.2 rfl⟩

/-- C7: out-of-bounds grid access is benign and non-mutating; the read
returns the sentinel `none` and the write returns the grid unchanged. -/
theorem out_of_bounds_benign (g : GridSystem) (row col : ℤ) (t : GridObjectType)
    (h : ¬ g.inBounds row col) :
    g.getCell row col = none ∧ g.setCell row col t = g := by
  constructor
  · simp [GridSystem.getCell, h]
  · simp [GridSystem.setCell, h]

/-- Witness for C7 at the out-of-bounds coordinate (-1, 0) of the initial
level-1 grid. -/
theorem out_of_bounds_benign_witness :
    initGrid.getCell (-1) 0 = none ∧ initGrid.setCell (-1) 0 LOG = initGrid :=
  out_of_bounds_benign initGrid (-1) 0 LOG (by decide)

/-- C10: `setGridPosition` clamps its arguments; for every integer pair,
including out-of-range values, the stored grid row ends in
[0, height - 1], the stored grid column in [0, width - 1], both equal to
the clamp of the request, and the world position is snapped to the
clamped cell center. -/
theorem setGridPosition_clamps (p : Player) (row col : ℤ)
    (hh : 1 ≤ p.gridHeight) (hw : 1 ≤ p.gridWidth) :
    0 ≤ (p.setGridPosition row col).gridRow ∧
    (p.setGridPosition row col).gridRow ≤ p.gridHeight - 1 ∧
    0 ≤ (p.setGridPosition row col).gridCol ∧
    (p.setGridPosition row col).gridCol ≤ p.gridWidth - 1 ∧
    (p.setGridPosition row col).gridRow = clamp row 0 (p.gridHeight - 1) ∧
    (p.setGridPosition row col).gridCol = clamp col 0 (p.gridWidth - 1) ∧
    (p.setGridPosition row col).x =
      ((jsRound (((clamp col 0 (p.gridWidth - 1) : ℤ) : ℚ) * GRID_SIZE + GRID_SIZE / 2) : ℤ) : ℚ) ∧
    (p.setGridPosition row col).y =
      ((jsRound (((clamp row 0 (p.gridHeight - 1) : ℤ) : ℚ) * GRID_SIZE + GRID_SIZE / 2) : ℤ) : ℚ) := by
  simp only [Player.setGridPosition, Player.snapToGrid, clamp]
  refine ⟨le_max_left _ _, ?_, le_max_left _ _, ?_, trivial, trivial, trivial, trivial⟩
  · exact max_le (by omega) (min_le_left _ _)
  · exact max_le (by omega) (min_le_left _ _)

/-- Witness for C10 with the out-of-range request (100, -5) on a 16 x 12
grid. -/
theorem setGridPosition_clamps_witness :
    (0 : ℤ) ≤ (Player.setGridPosition
      { gridRow := 0, gridCol := 0, gridWidth := 16, gridHeight := 12,
        x := 24, y := 24, flipX := false, isDead := false } 100 (-5)).gridRow ∧
    (Player.setGridPosition
      { gridRow := 0, gridCol := 0, gridWidth := 16, gridHeight := 12,
        x := 24, y := 24, flipX := false, isDead := false } 100 (-5)).gridRow ≤ 11 ∧
    (Player.setGridPosition
      { gridRow := 0, gridCol := 0, gridWidth := 16, gridHeight := 12,
        x := 24, y := 24, flipX := false, isDead := false } 100 (-5)).gridCol = 0 := by
  have h := setGridPosition_clamps
    { gridRow := 0, gridCol := 0, gridWidth := 16, gridHeight := 12,
      x := 24, y := 24, flipX := false, isDead := false } 100 (-5)
    (by decide) (by decide)
  refine ⟨h.1, h.2.1, ?_⟩
  rw [h.2.2.2.2.2.1]
  decide

lemma platformStep_eq (row col : ℤ) (acc : Bool × ℚ) (q : Platform) :
    platformStep row col acc q =
      if spanB q row col then (true, q.vx / FRAME_RATE) else acc := by
  unfold platformStep spanB
  by_cases h1 : ⌊q.y / GRID_SIZE⌋ = row
  · by_cases h2 : ⌊(q.x - q.displayWidth / 2) / GRID_SIZE⌋ ≤ col
    · by_cases h3 : col ≤ ⌊(q.x + q.displayWidth / 2) / GRID_SIZE⌋
      · simp [h1, h2, h3]
      · simp [h1, h2, h3]
    · simp [h1, h2]
  · simp [h1]

lemma checkPlatformCollision_fold (row col : ℤ) :
    ∀ (l : List Platform) (acc : Bool × ℚ),
      ((l.foldl (platformStep row col) acc).1 =
        (acc.1 || l.any (fun q => spanB q row col))) ∧
      (l.any (fun q => spanB q row col) = true →
        ∃ q ∈ l, spanB q row col = true ∧
          (l.foldl (platformStep row col) acc).2 = q.vx / FRAME_RATE) ∧
      (l.any (fun q => spanB q row col) = false →
        l.foldl (platformStep row col) acc = acc) := by
  intro l
  induction l with
  | nil => intro acc; simp
  | cons q l ih =>
    intro acc
    by_cases hq : spanB q row col = true
    · have hstep : platformStep row col acc q = (true, q.vx / FRAME_RATE) := by
        rw [platformStep_eq, if_pos hq]
      refine ⟨?_, ?_, ?_⟩
      · rw [List.foldl_cons, hstep, (ih _).1]
        simp [hq]
      · intro _
        by_cases hl : l.any (fun q => spanB q row col) = true
        · obtain ⟨q2, hmem, hspan, heq⟩ := (ih (true, q.vx / FRAME_RATE)).2.1 hl
          exact ⟨q2, List.mem_cons_of_mem _ hmem, hspan, by rw [List.foldl_cons, hstep]; exact heq⟩
        · have hfix := (ih (true, q.vx / FRAME_RATE)).2.2 (by simpa using hl)
          refine ⟨q, List.mem_cons_self _ _, hq, ?_⟩
          rw [List.foldl_cons, hstep, hfix]
      · intro hfalse
        simp [hq] at hfalse
    · have hstep : platformStep row col acc q = acc := by
        rw [platformStep_eq, if_neg hq]
      have hq2 : spanB q row col = false := by simpa using hq
      have hany : (q :: l).any (fun q => spanB q row col) =
          l.any (fun q => spanB q row col) := by
        simp [List.any_cons, hq2]
      refine ⟨?_, ?_, ?_⟩
      · rw [List.foldl_cons, hstep, hany, (ih acc).1]
      · intro h
        rw [hany] at h
        obtain ⟨q2, hmem, hspan, heq⟩ := (ih acc).2.1 h
        exact ⟨q2, List.mem_cons_of_mem _ hmem, hspan, by rw [List.foldl_cons, hstep]; exact heq⟩
      · intro h
        rw [hany] at h
        rw [List.foldl_cons, hstep]
        exact (ih acc).2.2 h

lemma collectible_none_of_not_collectible (g : GridSystem) (platforms : List Platform)
    (p : Player) (cell : GridCell)
    (hcell : g.getCell (playerRow p) (playerCol p) = some cell)
    (h1 : cell.object ≠ CHERRY) (h2 : cell.object ≠ COOKIE) :
    (checkPlayerCollision g platforms p).1.collectible = none := by
  unfold checkPlayerCollision
  split
  · rfl
  · split
    · rfl
    · rename_i cell2 heq
      rw [hcell] at heq
      injection heq with heq
      subst heq
      rw [if_neg (by simp [h1, h2] : ¬(cell.object = CHERRY ∨ cell.object = COOKIE))]
      split
      · rfl
      · split
        · split
          · rfl
          · rfl
        · split
          · rfl
          · rfl


/-- C2: for an alive player on a Water cell whose occupant is neither a
collectible nor the ant hill, the resolver reports death exactly when no
platform span at the player's row contains the player's column; when some
platform span does contain it, the result is a platform ride (not a death)
whose deltaX is that platform's horizontal velocity divided by the
reference frame rate 60. -/
theorem water_platform_ride (g : GridSystem) (platforms : List Platform) (p : Player)
    (cell : GridCell)
    (halive : p.isDead = false)
    (hcell : g.getCell (playerRow p) (playerCol p) = some cell)
    (hwater : cell.type = WATER)
    (hch : cell.object ≠ CHERRY) (hck : cell.object ≠ COOKIE) (hah : cell.object ≠ ANT_HILL) :
    ((checkPlayerCollision g platforms p).1.isDead =
      !(platforms.any (fun q => spanB q (playerRow p) (playerCol p)))) ∧
    ((checkPlayerCollision g platforms p).1.isWin = false) ∧
    ((platforms.any (fun q => spanB q (playerRow p) (playerCol p))) = true →
      ∃ q ∈ platforms, spanB q (playerRow p) (playerCol p) = true ∧
        (checkPlayerCollision g platforms p).1.platformMovement =
          some (q.vx / FRAME_RATE)) := by
  have hfold := checkPlatformCollision_fold (playerRow p) (playerCol p) platforms (false, 0)
  have hon : (checkPlatformCollision platforms (playerRow p) (playerCol p)).1 =
      platforms.any (fun q => spanB q (playerRow p) (playerCol p)) := by
    unfold checkPlatformCollision
    rw [hfold.1]
    simp
  have hres : checkPlayerCollision g platforms p =
      (if (platforms.any (fun q => spanB q (playerRow p) (playerCol p))) = true then
        ({ isDead := false, isWin := false, collectible := none,
           platformMovement :=
             some (checkPlatformCollision platforms (playerRow p) (playerCol p)).2 }, g)
      else
        ({ isDead := true, isWin := false, collectible := none,
           platformMovement := none }, g)) := by
    unfold checkPlayerCollision
    split
    · rename_i hdead
      simp [halive] at hdead
    · split
      · rename_i hnone
        rw [hcell] at hnone
        simp at hnone
      · rename_i cell2 heq
        rw [hcell] at heq
        injection heq with heq
        subst heq
        rw [if_neg (by simp [hch, hck] : ¬(cell.object = CHERRY ∨ cell.object = COOKIE)),
          if_neg hah, if_pos hwater, hon]
  by_cases hcase : platforms.any (fun q => spanB q (playerRow p) (playerCol p)) = true
  · refine ⟨?_, ?_, ?_⟩
    · rw [hres, if_pos hcase, hcase]
      rfl
    · rw [hres, if_pos hcase]
    · intro _
      obtain ⟨q, hmem, hspan, heq⟩ := hfold.2.1 hcase
      refine ⟨q, hmem, hspan, ?_⟩
      rw [hres, if_pos hcase]
      show some (checkPlatformCollision platforms (playerRow p) (playerCol p)).2 =
        some (q.vx / FRAME_RATE)
      unfold checkPlatformCollision
      rw [heq]
  · have hfalse : platforms.any (fun q => spanB q (playerRow p) (playerCol p)) = false := by
      simpa using hcase
    refine ⟨?_, ?_, ?_⟩
    · rw [hres, if_neg hcase, hfalse]
      rfl
    · rw [hres, if_neg hcase]
    · intro hcontra
      exact absurd hcontra hcase

/-- Witness for C2: on water row 2 of the level-1 grid, the demo log
platform spans columns 3 to 6; the alive player at column 4 rides it with
deltaX = 60 / 60 = 1, while with no platforms present the resolver reports
death. -/
theorem water_platform_ride_witness :
    ((checkPlayerCollision initGrid [demoLog] demoWaterPlayer).1.platformMovement = some 1) ∧
    ((checkPlayerCollision initGrid [demoLog] demoWaterPlayer).1.isDead = false) ∧
    ((checkPlayerCollision initGrid [] demoWaterPlayer).1.isDead = true) := by
  have hrow : playerRow demoWaterPlayer = 2 := by
    norm_num [playerRow, getPlayerGridPosition, GRID_SIZE, demoWaterPlayer]
  have hcol : playerCol demoWaterPlayer = 4 := by
    norm_num [playerCol, getPlayerGridPosition, GRID_SIZE, demoWaterPlayer]
  have hcell : initGrid.getCell (playerRow demoWaterPlayer) (playerCol demoWaterPlayer) =
      some { type := WATER, object := NONE, safe := false } := by
    rw [hrow, hcol]
    decide
  have hspan : spanB demoLog 2 4 = true := by
    simp only [spanB, demoLog, decide_eq_true_eq, Bool.and_eq_true]
    norm_num [GRID_SIZE]
  have hany : ([demoLog].any fun q =>
      spanB q (playerRow demoWaterPlayer) (playerCol demoWaterPlayer)) = true := by
    rw [hrow, hcol]
    simp [hspan]
  have h1 := water_platform_ride initGrid [demoLog] demoWaterPlayer
    { type := WATER, object := NONE, safe := false }
    rfl hcell rfl (by decide) (by decide) (by decide)
  have h2 := water_platform_ride initGrid [] demoWaterPlayer
    { type := WATER, object := NONE, safe := false }
    rfl hcell rfl (by decide) (by decide) (by decide)
  refine ⟨?_, ?_, ?_⟩
  · obtain ⟨q, hmem, hspan2, heq⟩ := h1.2.2 hany
    rw [List.mem_singleton] at hmem
    subst hmem
    rw [heq]
    norm_num [FRAME_RATE, demoLog]
  · rw [h1.1, hany]
    rfl
  · rw [h2.1]
    rfl

/-- C3 (code bug): evaluating the resolver at the failing input, the
cherry cell (1, 2) of the level-1 grid with an alive player standing on
it. One step reports no death and no win, carries the correct point value
10 and coordinates, clears the occupant to None, and a second step finds
no collectible - but the payload kind is NONE, not CHERRY as the claim
(and the source's own `CollisionResult` interface, which declares the
field as CHERRY or COOKIE) requires, because the source reads the kind
through the live cell reference after the in-place clear. -/
theorem collectible_pickup_bug :
    ((checkPlayerCollision initGrid [] demoCherryPlayer).1.collectible =
      some (NONE, 10, 1, 2)) ∧
    ((checkPlayerCollision initGrid [] demoCherryPlayer).1.collectible ≠
      some (CHERRY, 10, 1, 2)) ∧
    ((checkPlayerCollision initGrid [] demoCherryPlayer).1.isDead = false) ∧
    ((checkPlayerCollision initGrid [] demoCherryPlayer).1.isWin = false) ∧
    (((checkPlayerCollision initGrid [] demoCherryPlayer).2.getCell 1 2).map
      GridCell.object = some NONE) ∧
    ((checkPlayerCollision (checkPlayerCollision initGrid [] demoCherryPlayer).2 []
      demoCherryPlayer).1.collectible = none) := by
  have hrow : playerRow demoCherryPlayer = 1 := by
    norm_num [playerRow, getPlayerGridPosition, GRID_SIZE, demoCherryPlayer]
  have hcol : playerCol demoCherryPlayer = 2 := by
    norm_num [playerCol, getPlayerGridPosition, GRID_SIZE, demoCherryPlayer]
  have hcell : initGrid.getCell (playerRow demoCherryPlayer) (playerCol demoCherryPlayer) =
      some { type := SAFE_GRASS, object := CHERRY, safe := true } := by
    rw [hrow, hcol]
    decide
  have hres : checkPlayerCollision initGrid [] demoCherryPlayer =
      ({ isDead := false, isWin := false,
         collectible := some (NONE, 10, playerRow demoCherryPlayer, playerCol demoCherryPlayer),
         platformMovement := none },
       initGrid.setCell (playerRow demoCherryPlayer) (playerCol demoCherryPlayer) NONE) := by
    unfold checkPlayerCollision
    split
    · rename_i hdead
      simp [demoCherryPlayer] at hdead
    · split
      · rename_i hnone
        rw [hcell] at hnone
        simp at hnone
      · rename_i cell2 heq
        rw [hcell] at heq
        injection heq with heq
        subst heq
        rw [if_pos (Or.inl rfl)]
        rfl
  have hget := getCell_setCell_same NONE hcell
  refine ⟨?_, ?_, by rw [hres], by rw [hres], ?_, ?_⟩
  · rw [hres, hrow, hcol]
  · rw [hres, hrow, hcol]
    decide
  · rw [hres, ← hrow, ← hcol]
    show ((initGrid.setCell (playerRow demoCherryPlayer) (playerCol demoCherryPlayer)
      NONE).getCell (playerRow demoCherryPlayer) (playerCol demoCherryPlayer)).map
      GridCell.object = some NONE
    rw [hget]
    simp [updateCell]
  · rw [hres]
    show (checkPlayerCollision (initGrid.setCell (playerRow demoCherryPlayer)
      (playerCol demoCherryPlayer) NONE) [] demoCherryPlayer).1.collectible = none
    exact collectible_none_of_not_collectible _ [] demoCherryPlayer _ hget
      (by simp [updateCell]) (by simp [updateCell])

/-- C9: one resolver call reports at most one outcome: never both death
and win, never a death or win together with a collectible or platform-ride
payload, and for an already-dead player the result reports nothing at
all. -/
theorem resolver_single_outcome (g : GridSystem) (platforms : List Platform) (p : Player) :
    (((checkPlayerCollision g platforms p).1.isDead &&
      (checkPlayerCollision g platforms p).1.isWin) = false) ∧
    ((((checkPlayerCollision g platforms p).1.isDead ||
       (checkPlayerCollision g platforms p).1.isWin) &&
      ((checkPlayerCollision g platforms p).1.collectible.isSome ||
       (checkPlayerCollision g platforms p).1.platformMovement.isSome)) = false) ∧
    ((checkPlayerCollision g platforms { p with isDead := true }).1 =
      { isDead := false, isWin := false, collectible := none, platformMovement := none }) := by
  refine ⟨?_, ?_, ?_⟩
  · unfold checkPlayerCollision
    split
    · rfl
    · split
      · rfl
      · split
        · rfl
        · split
          · rfl
          · split
            · split
              · rfl
              · rfl
            · split
              · rfl
              · rfl
  · unfold checkPlayerCollision
    split
    · rfl
    · split
      · rfl
      · split
        · rfl
        · split
          · rfl
          · split
            · split
              · rfl
              · rfl
            · split
              · rfl
              · rfl
  · simp [checkPlayerCollision]

lemma snd_mem_of_mem_enum {α : Type} {l : List α} {x : ℕ × α} (h : x ∈ l.enum) : x.2 ∈ l := by
  rw [List.mem_enum_iff_getElem?] at h
  exact List.getElem?_mem h

lemma markStep_antStart_of_ne (ri : ℕ) (pos : LevelPositions) (chPair : ℕ × Char)
    (h : chPair.2 ≠ 'A') : (markStep ri pos chPair).antStart = pos.antStart := by
  unfold markStep
  rw [if_neg h]
  split <;> rfl

lemma markStep_antHill_of_ne (ri : ℕ) (pos : LevelPositions) (chPair : ℕ × Char)
    (h : chPair.2 ≠ 'H') : (markStep ri pos chPair).antHill = pos.antHill := by
  unfold markStep
  split
  · rfl
  · simp_all

lemma foldl_markStep_antStart (ri : ℕ) :
    ∀ (l : List (ℕ × Char)) (pos : LevelPositions),
      (∀ cp ∈ l, cp.2 ≠ 'A') → (l.foldl (markStep ri) pos).antStart = pos.antStart := by
  intro l
  induction l with
  | nil => intro pos _; rfl
  | cons cp l ih =>
    intro pos h
    rw [List.foldl_cons, ih _ (fun x hx => h x (List.mem_cons_of_mem _ hx)),
      markStep_antStart_of_ne ri pos cp (h cp (List.mem_cons_self _ _))]

lemma foldl_markStep_antHill (ri : ℕ) :
    ∀ (l : List (ℕ × Char)) (pos : LevelPositions),
      (∀ cp ∈ l, cp.2 ≠ 'H') → (l.foldl (markStep ri) pos).antHill = pos.antHill := by
  intro l
  induction l with
  | nil => intro pos _; rfl
  | cons cp l ih =>
    intro pos h
    rw [List.foldl_cons, ih _ (fun x hx => h x (List.mem_cons_of_mem _ hx)),
      markStep_antHill_of_ne ri pos cp (h cp (List.mem_cons_self _ _))]

lemma rowStep_antStart (pos : LevelPositions) (rowPair : ℕ × String)
    (h : 'A' ∉ rowPair.2.toList) : (rowStep pos rowPair).antStart = pos.antStart := by
  unfold rowStep
  apply foldl_markStep_antStart
  intro cp hcp hEq
  exact h (hEq ▸ snd_mem_of_mem_enum hcp)

lemma rowStep_antHill (pos : LevelPositions) (rowPair : ℕ × String)
    (h : 'H' ∉ rowPair.2.toList) : (rowStep pos rowPair).antHill = pos.antHill := by
  unfold rowStep
  apply foldl_markStep_antHill
  intro cp hcp hEq
  exact h (hEq ▸ snd_mem_of_mem_enum hcp)

lemma foldl_rowStep_antStart :
    ∀ (l : List (ℕ × String)) (pos : LevelPositions),
      (∀ rp ∈ l, 'A' ∉ rp.2.toList) → (l.foldl rowStep pos).antStart = pos.antStart := by
  intro l
  induction l with
  | nil => intro pos _; rfl
  | cons rp l ih =>
    intro pos h
    rw [List.foldl_cons, ih _ (fun x hx => h x (List.mem_cons_of_mem _ hx)),
      rowStep_antStart pos rp (h rp (List.mem_cons_self _ _))]

lemma foldl_rowStep_antHill :
    ∀ (l : List (ℕ × String)) (pos : LevelPositions),
      (∀ rp ∈ l, 'H' ∉ rp.2.toList) → (l.foldl rowStep pos).antHill = pos.antHill := by
  intro l
  induction l with
  | nil => intro pos _; rfl
  | cons rp l ih =>
    intro pos h
    rw [List.foldl_cons, ih _ (fun x hx => h x (List.mem_cons_of_mem _ hx)),
      rowStep_antHill pos rp (h rp (List.mem_cons_self _ _))]

lemma findLevelPositions_antStart_of_no_A (rows : List String)
    (h : ∀ r ∈ rows, 'A' ∉ r.toList) : (findLevelPositions rows).antStart = (-1, -1) := by
  unfold findLevelPositions
  apply foldl_rowStep_antStart
  intro rp hrp
  exact h rp.2 (snd_mem_of_mem_enum hrp)

lemma findLevelPositions_antHill_of_no_H (rows : List String)
    (h : ∀ r ∈ rows, 'H' ∉ r.toList) : (findLevelPositions rows).antHill = (-1, -1) := by
  unfold findLevelPositions
  apply foldl_rowStep_antHill
  intro rp hrp
  exact h rp.2 (snd_mem_of_mem_enum hrp)

/-- C4 counterexample: a one-row level containing two start markers (and
rows of equal length) passes validation with an empty error list, because
`validateLevel` only checks that a start position was found, not that the
marker is unique. -/
theorem validateLevel_duplicate_start_counterexample :
    (("AAH".toList.count 'A') = 2) ∧
    ("AAH".length = levelWidth ["AAH"]) ∧
    validateLevel ["AAH"] = [] := by
  refine ⟨by decide, by decide, by decide⟩

/-- C4 amended: `validateLevel` returns a non-empty error list whenever the
start marker is absent, the goal marker is absent, or some row's length
differs from the configured width (the first row's length, with a fallback
of 16 when it is absent or empty); duplicate markers are not detected. -/
theorem validateLevel_amended (rows : List String)
    (h : (∀ r ∈ rows, 'A' ∉ r.toList) ∨ (∀ r ∈ rows, 'H' ∉ r.toList) ∨
      (∃ rp ∈ rows.enum, rp.2.length ≠ levelWidth rows)) :
    validateLevel rows ≠ [] := by
  intro hnil
  simp only [validateLevel] at hnil
  rcases h with hA | hH | ⟨rp, hmem, hlen⟩
  · rw [findLevelPositions_antStart_of_no_A rows hA] at hnil
    simp at hnil
  · rw [findLevelPositions_antHill_of_no_H rows hH] at hnil
    simp at hnil
  · have hmsg : ("Row " ++ toString rp.1 ++ " has " ++ toString rp.2.length ++
        " characters, expected " ++ toString (levelWidth rows)) ∈
        rows.enum.filterMap (fun rowPair =>
          if rowPair.2.length ≠ levelWidth rows then
            some ("Row " ++ toString rowPair.1 ++ " has " ++ toString rowPair.2.length ++
              " characters, expected " ++ toString (levelWidth rows))
          else none) := by
      exact List.mem_filterMap.mpr ⟨rp, hmem, by rw [if_pos hlen]⟩
    obtain ⟨-, htail⟩ := List.append_eq_nil.mp hnil
    rw [htail] at hmsg
    exact absurd hmsg (List.not_mem_nil _)

/-- Witness for C4 amended: a two-row level with mismatched row lengths
yields a non-empty error list. -/
theorem validateLevel_amended_witness : validateLevel ["GA", "H"] ≠ [] :=
  validateLevel_amended ["GA", "H"] (by decide)

/-- C8 counterexample: an obstacle moving right (velocity 100) whose x
position 900 has fully exited the 800-pixel visible width is relocated by
`Obstacle.update` to x = -50, a fixed margin, not to minus its own display
width (-60) as claimed. -/
theorem obstacle_wrap_counterexample :
    ((0 : ℚ) < 100) ∧
    (800 + obstacleDisplayWidth < 900) ∧
    ((Obstacle.update 800 { x := 900, vx := 100 }).x = -50) ∧
    (-obstacleDisplayWidth ≠ (-50 : ℚ)) := by
  refine ⟨by norm_num, by norm_num [obstacleDisplayWidth], ?_,
    by norm_num [obstacleDisplayWidth]⟩
  simp only [Obstacle.update]
  norm_num

/-- C8 amended: platforms wrap exactly as claimed (a platform moving right
that has passed `width + displayWidth` restarts at `-displayWidth`, and
symmetrically when moving left), and both update functions always return a
repositioned entity rather than destroying it; obstacles, however, wrap on
position alone at a fixed 50-pixel margin, regardless of velocity sign and
of their own width. -/
theorem screen_wrap_amended (width : ℚ) (p : Platform) (o : Obstacle)
    (hw : 0 ≤ width) :
    (p.vx > 0 → p.x > width + p.displayWidth →
      (Platform.handleScreenWrapping width p).x = -p.displayWidth) ∧
    (p.vx < 0 → p.x < -p.displayWidth →
      (Platform.handleScreenWrapping width p).x = width + p.displayWidth) ∧
    (o.x < -50 → (Obstacle.update width o).x = width + 50) ∧
    (o.x > width + 50 → (Obstacle.update width o).x = -50) := by
  refine ⟨?_, ?_, ?_, ?_⟩
  · intro hv hx
    simp only [Platform.handleScreenWrapping]
    rw [if_pos hv, if_pos hx]
  · intro hv hx
    simp only [Platform.handleScreenWrapping]
    rw [if_neg (by linarith : ¬ p.vx > 0), if_pos hv, if_pos hx]
  · intro hx
    simp only [Obstacle.update]
    rw [if_pos hx]
  · intro hx
    simp only [Obstacle.update]
    rw [if_neg (by linarith : ¬ o.x < -50), if_pos hx]

/-- Witness for C8 amended: with screen width 800, a log platform at
x = 960 (past 800 + 150) moving right restarts at -150, and an obstacle at
x = 900 restarts at -50. -/
theorem screen_wrap_amended_witness :
    ((Platform.handleScreenWrapping 800
      { x := 960, y := 120, displayWidth := 150, vx := 60 }).x = -150) ∧
    ((Obstacle.update 800 { x := 900, vx := 100 }).x = -50) := by
  have h := screen_wrap_amended 800
    { x := 960, y := 120, displayWidth := 150, vx := 60 }
    { x := 900, vx := 100 } (by norm_num)
  exact ⟨by rw [h.1 (by norm_num) (by norm_num)], h.2.2.2 (by norm_num)⟩
